import Mathlib

/-!
# libpdx_uds `ipc_helper.h`: envelope schemas, generic send/receive, interrupt retry

A shallow embedding of `libs/vr/libpdx_uds/private/uds/ipc_helper.h`.

* Stateful code is written in state-passing style over a world type `σ`
  (socket, descriptor table, `errno`).
* The collaborators that the header only declares or includes (the payload's
  `Send`/`Receive`, the `rpc` serializer's leaf encoders and decoders, the
  numeric values of `EINTR` and `EIO`) are parameters of the definitions, so
  every theorem holds for all of them.
* `int32_t` is `Int`, `uint32_t` and `size_t` are `Nat`; no arithmetic is done
  on them here, so no wrap-around is involved.
-/

namespace Uds

/-! ## `RETRY_EINTR` (lines 17-24) -/

/-- What one run of the `RETRY_EINTR` lambda produced: the returned `result`,
the world after the last evaluation of `fnc_call`, and a ghost counter of how
many times `fnc_call` was evaluated. -/
structure Retried (σ : Type) where
  result : Int
  state : σ
  evaluations : Nat
deriving DecidableEq, Repr

/-- The loop condition `result == -1 && errno == EINTR`, read after an
evaluation of `fnc_call` that returned `result` and left the world `s`. -/
def interrupted {σ : Type} (EINTR : Int) (errno : σ → Int) (result : Int) (s : σ) : Prop :=
  result = -1 ∧ errno s = EINTR

instance {σ : Type} (EINTR : Int) (errno : σ → Int) (result : Int) (s : σ) :
    Decidable (interrupted EINTR errno result s) := by
  unfold interrupted
  exact inferInstance

/-- The body of `RETRY_EINTR(fnc_call)`:
`do { result = (fnc_call); } while (result == -1 && errno == EINTR); return result;`.
`fnc_call` is the wrapped expression as a state transformer, `errno` reads the
thread's `errno` from the world. The C++ loop is unbounded, so the embedding
takes fuel: `none` means the fuel ran out before the loop ended. -/
def RETRY_EINTR {σ : Type} (EINTR : Int) (errno : σ → Int) (fnc_call : σ → Int × σ) :
    Nat → σ → Option (Retried σ)
  | 0, _ => none
  | fuel + 1, s =>
    if interrupted EINTR errno (fnc_call s).1 (fnc_call s).2 then
      (RETRY_EINTR EINTR errno fnc_call fuel (fnc_call s).2).map
        fun r => { r with evaluations := r.evaluations + 1 }
    else
      some { result := (fnc_call s).1, state := (fnc_call s).2, evaluations := 1 }

/-- The world after `n` successive evaluations of `fnc_call` starting in `s`. -/
def stateAfter {σ : Type} (fnc_call : σ → Int × σ) (s : σ) : Nat → σ
  | 0 => s
  | n + 1 => (fnc_call (stateAfter fnc_call s n)).2

/-- The value returned by evaluation number `n + 1` of `fnc_call` (zero-based
index `n`) when it is evaluated again and again starting in `s`. -/
def resultAt {σ : Type} (fnc_call : σ → Int × σ) (s : σ) (n : Nat) : Int :=
  (fnc_call (stateAfter fnc_call s n)).1

/-! ## Types the header takes from its includes -/

/-- One `uint8_t`. -/
abbrev Byte := Fin 256

/-- Modelled from the spec: `ucred` is declared by `<sys/socket.h>`, which is
not part of this file; the spec describes the sender credential as a
"uid/gid/pid triple". -/
structure ucred where
  pid : Int
  uid : Nat
  gid : Nat
deriving DecidableEq, Repr

/-- Modelled from the spec: `Status<void>` is declared by `<pdx/status.h>`, which
is not part of this file; the spec describes it as "a result value carrying
success/failure plus an OS-style error code". -/
inductive Status where
  | ok
  | error (code : Int)
deriving DecidableEq, Repr

/-- The `explicit operator bool` of a status: true when it holds no error. -/
def Status.isOk : Status → Bool
  | .ok => true
  | .error _ => false

/-- The call `status.SetError(error)`: the status now holds `error`. -/
def Status.SetError (_status : Status) (error : Int) : Status :=
  .error error

/-- Modelled from the spec: `rpc::ErrorCode` is declared by
`<pdx/rpc/serialization.h>`, which is not part of this file. `NO_ERROR` is the
one value the header names; every other value is a decode failure
("structurally invalid or truncated serialized data") of some kind. -/
inductive ErrorCode where
  | NO_ERROR
  | DECODE_FAILURE (kind : Nat)
deriving DecidableEq, Repr

/-- Modelled from the spec: `FileReference` is declared by the `pdx` headers;
the spec describes it as "a small non-negative integer". -/
abbrev FileReference := Nat

/-- Modelled from the spec: the handle classes (`LocalHandle`, `BorrowedHandle`,
`RemoteHandle`) are declared by the `pdx` headers; the spec describes them as
three ownership variants, each holding one descriptor. -/
inductive Handle where
  | Local (fd : Int)
  | Borrowed (fd : Int)
  | Remote (fd : Int)
deriving DecidableEq, Repr

/-- The descriptor a handle holds (`handle.Get()`). -/
def Handle.Get : Handle → Int
  | .Local fd => fd
  | .Borrowed fd => fd
  | .Remote fd => fd

/-! ## `SendPayload` and `ReceivePayload` (lines 26-69) -/

/-- The data members of `class SendPayload`: `ByteBuffer buffer_` and
`std::vector<int> file_handles_`. A default-constructed payload has both empty. -/
structure SendPayload where
  buffer_ : List Byte := []
  file_handles_ : List Int := []
deriving DecidableEq, Repr

/-- The data members of `class ReceivePayload`: `ByteBuffer buffer_`,
`std::vector<LocalHandle> file_handles_` (each an owned descriptor) and
`size_t read_pos_{0}`. -/
structure ReceivePayload where
  buffer_ : List Byte := []
  file_handles_ : List Int := []
  read_pos_ : Nat := 0
deriving DecidableEq, Repr

/-- Modelled from the spec: the body of `SendPayload::PushFileHandle` (declared at
lines 36-38, one overload per handle class) is not part of this file. The spec:
it "appends the handle's transferable descriptor to an ordered pending-transfer
list; returns the list length *before* the append as the reference value", with
no deduplication. -/
def SendPayload.PushFileHandle (p : SendPayload) : Handle → FileReference × SendPayload
  | .Local fd => (p.file_handles_.length, { p with file_handles_ := p.file_handles_ ++ [fd] })
  | .Borrowed fd => (p.file_handles_.length, { p with file_handles_ := p.file_handles_ ++ [fd] })
  | .Remote fd => (p.file_handles_.length, { p with file_handles_ := p.file_handles_ ++ [fd] })

/-- A sequence of `PushFileHandle` calls on one payload, in list order: the
references the calls returned and the payload after the last call. -/
def SendPayload.PushFileHandles (p : SendPayload) :
    List Handle → List FileReference × SendPayload
  | [] => ([], p)
  | h :: hs =>
    ((p.PushFileHandle h).1 :: ((p.PushFileHandle h).2.PushFileHandles hs).1,
     ((p.PushFileHandle h).2.PushFileHandles hs).2)

/-- What `SendPayload::Send` hands back: the status it returns and the world
after the socket call. -/
structure SendResult (σ : Type) where
  status : Status
  world : σ

/-- What `ReceivePayload::Receive(int)` hands back: the status it returns, the
payload as filled by the call, and the world after the socket call. -/
structure ReceiveResult (σ : Type) where
  status : Status
  payload : ReceivePayload
  world : σ

/-- What `ReceivePayload::Receive(int, ucred*)` hands back: as `ReceiveResult`,
plus the value the call left in `*cred`. -/
structure ReceiveCredResult (σ : Type) where
  status : Status
  cred : ucred
  payload : ReceivePayload
  world : σ

/-- What a call of `rpc::Deserialize(T* value, reader)` hands back: the error
code it returns, `*value` as the call left it, the payload with its read
position advanced, and the world. -/
structure DeserializeResult (T σ : Type) where
  error : ErrorCode
  value : T
  payload : ReceivePayload
  world : σ

/-- What `ReceiveData` hands back: the status it returns, `*data` as the call
left it, and the world after the call. -/
structure ReceiveDataResult (T σ : Type) where
  status : Status
  data : T
  world : σ

/-! ## Envelope schemas (lines 71-110) -/

/-- The C++ types of the envelope classes' data members, as the header spells
them. -/
inductive CType where
  | int32_t
  | uint32_t
  | uint8_t
  | bool
  | ucred
  | FileHandleType
  | ChannelInfo
  | vector (elem : CType)
  | array (elem : CType) (size : Nat)
deriving DecidableEq, Repr

/-- A `std::array<uint8_t, 32>`: exactly 32 bytes. -/
abbrev ByteArray32 := { bytes : List Byte // bytes.length = 32 }

/-- The data members of `class ChannelInfo` (lines 74-75). -/
structure ChannelInfo (FileHandleType : Type) where
  data_fd : FileHandleType
  event_fd : FileHandleType
deriving DecidableEq, Repr

/-- The names of the data members of `ChannelInfo`. -/
inductive ChannelInfo.Field where
  | data_fd
  | event_fd
deriving DecidableEq, Repr

/-- The declared type of each data member of `ChannelInfo` (lines 74-75). -/
def ChannelInfo.Field.ctype : ChannelInfo.Field → CType
  | .data_fd => .FileHandleType
  | .event_fd => .FileHandleType

/-- The member list of `PDX_SERIALIZABLE_MEMBERS(ChannelInfo, data_fd, event_fd)`
(line 78). -/
def ChannelInfo.PDX_SERIALIZABLE_MEMBERS : List ChannelInfo.Field :=
  [.data_fd, .event_fd]

/-- The data members of `class RequestHeader` (lines 84-91), with the default
member initializers the header gives. -/
structure RequestHeader (FileHandleType : Type) where
  op : Int := 0
  cred : ucred
  send_len : Nat := 0
  max_recv_len : Nat := 0
  file_descriptors : List FileHandleType
  channels : List (ChannelInfo FileHandleType)
  impulse_payload : ByteArray32
  is_impulse : Bool := false
deriving DecidableEq, Repr

/-- The names of the data members of `RequestHeader`, in declaration order. -/
inductive RequestHeader.Field where
  | op
  | cred
  | send_len
  | max_recv_len
  | file_descriptors
  | channels
  | impulse_payload
  | is_impulse
deriving DecidableEq, Repr

/-- The declared type of each data member of `RequestHeader` (lines 84-91). -/
def RequestHeader.Field.ctype : RequestHeader.Field → CType
  | .op => .int32_t
  | .cred => .ucred
  | .send_len => .uint32_t
  | .max_recv_len => .uint32_t
  | .file_descriptors => .vector .FileHandleType
  | .channels => .vector .ChannelInfo
  | .impulse_payload => .array .uint8_t 32
  | .is_impulse => .bool

/-- The member list of `PDX_SERIALIZABLE_MEMBERS(RequestHeader, op, send_len,
max_recv_len, file_descriptors, channels, impulse_payload, is_impulse)`
(lines 94-96). -/
def RequestHeader.PDX_SERIALIZABLE_MEMBERS : List RequestHeader.Field :=
  [.op, .send_len, .max_recv_len, .file_descriptors, .channels, .impulse_payload,
   .is_impulse]

/-- The data members of `class ResponseHeader` (lines 102-105), with the default
member initializers the header gives. -/
structure ResponseHeader (FileHandleType : Type) where
  ret_code : Int := 0
  recv_len : Nat := 0
  file_descriptors : List FileHandleType
  channels : List (ChannelInfo FileHandleType)
deriving DecidableEq, Repr

/-- The names of the data members of `ResponseHeader`, in declaration order. -/
inductive ResponseHeader.Field where
  | ret_code
  | recv_len
  | file_descriptors
  | channels
deriving DecidableEq, Repr

/-- The declared type of each data member of `ResponseHeader` (lines 102-105). -/
def ResponseHeader.Field.ctype : ResponseHeader.Field → CType
  | .ret_code => .int32_t
  | .recv_len => .uint32_t
  | .file_descriptors => .vector .FileHandleType
  | .channels => .vector .ChannelInfo

/-- The member list of `PDX_SERIALIZABLE_MEMBERS(ResponseHeader, ret_code,
recv_len, file_descriptors, channels)` (lines 108-109). -/
def ResponseHeader.PDX_SERIALIZABLE_MEMBERS : List ResponseHeader.Field :=
  [.ret_code, .recv_len, .file_descriptors, .channels]

/-! ## The generic serializer `rpc::Serialize` (included, not defined here) -/

/-- The leaf encoders of `rpc::Serialize` (`<pdx/rpc/serialization.h>`, not part
of this file), taken as parameters: how one value of each leaf type is written
into a `SendPayload` through its `MessageWriter` and `OutputResourceMapper`
interfaces. `encode_size` writes the element count of a container. -/
structure Encoder (FileHandleType : Type) where
  encode_int32_t : Int → SendPayload → SendPayload
  encode_uint32_t : Nat → SendPayload → SendPayload
  encode_bool : Bool → SendPayload → SendPayload
  encode_uint8_array32 : ByteArray32 → SendPayload → SendPayload
  encode_ucred : ucred → SendPayload → SendPayload
  encode_handle : FileHandleType → SendPayload → SendPayload
  encode_size : Nat → SendPayload → SendPayload

/-- Modelled from the spec: how `rpc::Serialize` treats a class with
`PDX_SERIALIZABLE_MEMBERS` is defined in `<pdx/rpc/serializable.h>` and
`<pdx/rpc/serialization.h>`, not in this file. The spec: "an explicit, ordered
list of field accessors (a schema descriptor) that the generic
serializer/deserializer walks". `write m` serializes member `m` of the object. -/
def SerializeMembers {F : Type} (write : F → SendPayload → SendPayload)
    (members : List F) (p : SendPayload) : SendPayload :=
  members.foldl (fun q m => write m q) p

/-- Modelled from the spec: how `rpc::Serialize` treats a `std::vector` is
defined in `<pdx/rpc/serialization.h>`, not in this file. The spec calls the
tables "length-prefixed": the element count, then the elements in order. -/
def SerializeVector {FileHandleType α : Type} (E : Encoder FileHandleType)
    (elem : α → SendPayload → SendPayload) (v : List α) (p : SendPayload) : SendPayload :=
  v.foldl (fun q x => elem x q) (E.encode_size v.length p)

/-- Serializing one data member of a `ChannelInfo`, by its declared type. -/
def ChannelInfo.Field.Serialize {FileHandleType : Type} (E : Encoder FileHandleType)
    (c : ChannelInfo FileHandleType) : ChannelInfo.Field → SendPayload → SendPayload
  | .data_fd => E.encode_handle c.data_fd
  | .event_fd => E.encode_handle c.event_fd

/-- The call `rpc::Serialize(c, &payload)` for a `ChannelInfo`. -/
def ChannelInfo.Serialize {FileHandleType : Type} (E : Encoder FileHandleType)
    (c : ChannelInfo FileHandleType) (p : SendPayload) : SendPayload :=
  SerializeMembers (ChannelInfo.Field.Serialize E c) ChannelInfo.PDX_SERIALIZABLE_MEMBERS p

/-- Serializing one data member of a `RequestHeader`, by its declared type. -/
def RequestHeader.Field.Serialize {FileHandleType : Type} (E : Encoder FileHandleType)
    (r : RequestHeader FileHandleType) : RequestHeader.Field → SendPayload → SendPayload
  | .op => E.encode_int32_t r.op
  | .cred => E.encode_ucred r.cred
  | .send_len => E.encode_uint32_t r.send_len
  | .max_recv_len => E.encode_uint32_t r.max_recv_len
  | .file_descriptors => SerializeVector E E.encode_handle r.file_descriptors
  | .channels => SerializeVector E (ChannelInfo.Serialize E) r.channels
  | .impulse_payload => E.encode_uint8_array32 r.impulse_payload
  | .is_impulse => E.encode_bool r.is_impulse

/-- The call `rpc::Serialize(request, &payload)` for a `RequestHeader`. -/
def RequestHeader.Serialize {FileHandleType : Type} (E : Encoder FileHandleType)
    (r : RequestHeader FileHandleType) (p : SendPayload) : SendPayload :=
  SerializeMembers (RequestHeader.Field.Serialize E r) RequestHeader.PDX_SERIALIZABLE_MEMBERS p

/-- Serializing one data member of a `ResponseHeader`, by its declared type. -/
def ResponseHeader.Field.Serialize {FileHandleType : Type} (E : Encoder FileHandleType)
    (r : ResponseHeader FileHandleType) : ResponseHeader.Field → SendPayload → SendPayload
  | .ret_code => E.encode_int32_t r.ret_code
  | .recv_len => E.encode_uint32_t r.recv_len
  | .file_descriptors => SerializeVector E E.encode_handle r.file_descriptors
  | .channels => SerializeVector E (ChannelInfo.Serialize E) r.channels

/-- The call `rpc::Serialize(response, &payload)` for a `ResponseHeader`. -/
def ResponseHeader.Serialize {FileHandleType : Type} (E : Encoder FileHandleType)
    (r : ResponseHeader FileHandleType) (p : SendPayload) : SendPayload :=
  SerializeMembers (ResponseHeader.Field.Serialize E r)
    ResponseHeader.PDX_SERIALIZABLE_MEMBERS p

/-! ## The generic deserializer `rpc::Deserialize` (included, not defined here) -/

/-- The leaf decoders of `rpc::Deserialize` (`<pdx/rpc/serialization.h>`, not
part of this file), taken as parameters: each is handed the current value of the
object it decodes into, the payload and the world, and hands back an error code,
the object as it left it, the payload and the world. -/
structure Decoder (FileHandleType σ : Type) where
  decode_int32_t : Int → ReceivePayload → σ → DeserializeResult Int σ
  decode_uint32_t : Nat → ReceivePayload → σ → DeserializeResult Nat σ
  decode_bool : Bool → ReceivePayload → σ → DeserializeResult Bool σ
  decode_uint8_array32 : ByteArray32 → ReceivePayload → σ → DeserializeResult ByteArray32 σ
  decode_ucred : ucred → ReceivePayload → σ → DeserializeResult ucred σ
  decode_handles : List FileHandleType → ReceivePayload → σ →
    DeserializeResult (List FileHandleType) σ
  decode_channels : List (ChannelInfo FileHandleType) → ReceivePayload → σ →
    DeserializeResult (List (ChannelInfo FileHandleType)) σ

/-- The outcome of decoding into one member: the enclosing object with that
member replaced by what the decoder left in it. -/
def DeserializeResult.store {α T σ : Type} (d : DeserializeResult α σ) (set : α → T) :
    DeserializeResult T σ :=
  { error := d.error, value := set d.value, payload := d.payload, world := d.world }

/-- Modelled from the spec: how `rpc::Deserialize` treats a class with
`PDX_SERIALIZABLE_MEMBERS` is defined in `<pdx/rpc/serializable.h>` and
`<pdx/rpc/serialization.h>`, not in this file. The spec: "an explicit, ordered
list of field accessors (a schema descriptor) that the generic
serializer/deserializer walks"; a failure ("malformed or truncated structure")
ends the walk with that error. `read m` deserializes into member `m`. -/
def DeserializeMembers {F T σ : Type}
    (read : F → T → ReceivePayload → σ → DeserializeResult T σ) :
    List F → T → ReceivePayload → σ → DeserializeResult T σ
  | [], v, p, s => { error := .NO_ERROR, value := v, payload := p, world := s }
  | m :: ms, v, p, s =>
    if (read m v p s).error = .NO_ERROR then
      DeserializeMembers read ms (read m v p s).value (read m v p s).payload (read m v p s).world
    else
      read m v p s

/-- Deserializing into one data member of a `RequestHeader`, by its declared
type: only that member of `*request` is written. -/
def RequestHeader.Field.Deserialize {FileHandleType σ : Type} (D : Decoder FileHandleType σ) :
    RequestHeader.Field → RequestHeader FileHandleType → ReceivePayload → σ →
      DeserializeResult (RequestHeader FileHandleType) σ
  | .op, r, p, s => (D.decode_int32_t r.op p s).store fun v => { r with op := v }
  | .cred, r, p, s => (D.decode_ucred r.cred p s).store fun v => { r with cred := v }
  | .send_len, r, p, s => (D.decode_uint32_t r.send_len p s).store fun v => { r with send_len := v }
  | .max_recv_len, r, p, s =>
    (D.decode_uint32_t r.max_recv_len p s).store fun v => { r with max_recv_len := v }
  | .file_descriptors, r, p, s =>
    (D.decode_handles r.file_descriptors p s).store fun v => { r with file_descriptors := v }
  | .channels, r, p, s =>
    (D.decode_channels r.channels p s).store fun v => { r with channels := v }
  | .impulse_payload, r, p, s =>
    (D.decode_uint8_array32 r.impulse_payload p s).store fun v => { r with impulse_payload := v }
  | .is_impulse, r, p, s =>
    (D.decode_bool r.is_impulse p s).store fun v => { r with is_impulse := v }

/-- The call `rpc::Deserialize(request, &payload)` for a `RequestHeader`. -/
def RequestHeader.Deserialize {FileHandleType σ : Type} (D : Decoder FileHandleType σ)
    (r : RequestHeader FileHandleType) (p : ReceivePayload) (s : σ) :
    DeserializeResult (RequestHeader FileHandleType) σ :=
  DeserializeMembers (RequestHeader.Field.Deserialize D)
    RequestHeader.PDX_SERIALIZABLE_MEMBERS r p s

/-! ## Generic send/receive entry points (lines 112-147) -/

/-- The template `SendData(int socket_fd, const T& data)` (lines 112-117):
`SendPayload payload; rpc::Serialize(data, &payload); return payload.Send(socket_fd);`.
`Serialize` is `rpc::Serialize` at type `T`, `Send` is `SendPayload::Send(int)`. -/
def SendData {T σ : Type} (Serialize : T → SendPayload → SendPayload)
    (Send : SendPayload → Int → σ → SendResult σ)
    (socket_fd : Int) (data : T) (s : σ) : SendResult σ :=
  Send (Serialize data {}) socket_fd s

/-- The overload `SendData(int socket_fd, const RequestHeader<FileHandleType>& request)`
(lines 119-125): `SendPayload payload; rpc::Serialize(request, &payload);
return payload.Send(socket_fd, &request.cred);`. `SendCred` is
`SendPayload::Send(int, const ucred*)`, handed the value `cred` points to. -/
def SendDataRequest {FileHandleType σ : Type} (E : Encoder FileHandleType)
    (SendCred : SendPayload → Int → ucred → σ → SendResult σ)
    (socket_fd : Int) (request : RequestHeader FileHandleType) (s : σ) : SendResult σ :=
  SendCred (RequestHeader.Serialize E request {}) socket_fd request.cred s

/-- The template `ReceiveData(int socket_fd, T* data)` (lines 130-137):
`ReceivePayload payload; Status<void> status = payload.Receive(socket_fd);
if (status && rpc::Deserialize(data, &payload) != rpc::ErrorCode::NO_ERROR)
status.SetError(EIO); return status;`. The `&&` does not evaluate
`rpc::Deserialize` when `status` is false. `Receive` is
`ReceivePayload::Receive(int)`, `Deserialize` is `rpc::Deserialize` at type `T`. -/
def ReceiveData {T σ : Type} ( EIO : Int)
    (Receive : ReceivePayload → Int → σ → ReceiveResult σ)
    (Deserialize : T → ReceivePayload → σ → DeserializeResult T σ)
    (socket_fd : Int) (data : T) (s : σ) : ReceiveDataResult T σ :=
  let received := Receive {} socket_fd s
  if received.status.isOk then
    let decoded := Deserialize data received.payload received.world
    if decoded.error ≠ .NO_ERROR then
      { status := received.status.SetError EIO, data := decoded.value, world := decoded.world }
    else
      { status := received.status, data := decoded.value, world := decoded.world }
  else
    { status := received.status, data := data, world := received.world }

/-- The overload `ReceiveData(int socket_fd, RequestHeader<FileHandleType>* request)`
(lines 139-147): as the template, with
`payload.Receive(socket_fd, &request->cred)`. `ReceiveCred` is
`ReceivePayload::Receive(int, ucred*)`, handed the value `cred` points to and
handing back the value it left there. -/
def ReceiveDataRequest {FileHandleType σ : Type} ( EIO : Int)
    (ReceiveCred : ReceivePayload → Int → ucred → σ → ReceiveCredResult σ)
    (D : Decoder FileHandleType σ)
    (socket_fd : Int) (request : RequestHeader FileHandleType) (s : σ) :
    ReceiveDataResult (RequestHeader FileHandleType) σ :=
  let received := ReceiveCred {} socket_fd request.cred s
  let request1 : RequestHeader FileHandleType := { request with cred := received.cred }
  if received.status.isOk then
    let decoded := RequestHeader.Deserialize D request1 received.payload received.world
    if decoded.error ≠ .NO_ERROR then
      { status := received.status.SetError EIO, data := decoded.value, world := decoded.world }
    else
      { status := received.status, data := decoded.value, world := decoded.world }
  else
    { status := received.status, data := request1, world := received.world }

/-! ## Concrete collaborators for the examples -/

/-- A small world for the examples: the bytes waiting on the socket, the
credential of the peer, and a count of the leaf decoder calls made so far. -/
structure ExampleWorld where
  pending : List Byte
  peer : ucred
  decodeCalls : Nat
deriving DecidableEq, Repr

/-- An example `ReceivePayload::Receive(int)`: fails with error `9` on a negative
descriptor, otherwise moves the pending bytes into the payload's buffer. -/
def exampleReceive (p : ReceivePayload) (socket_fd : Int) (s : ExampleWorld) :
    ReceiveResult ExampleWorld :=
  if socket_fd < 0 then { status := .error 9, payload := p, world := s }
  else { status := .ok, payload := { p with buffer_ := s.pending },
         world := { s with pending := [] } }

/-- An example `ReceivePayload::Receive(int, ucred*)`: as `exampleReceive`, and
on success it stores the peer's credential in `*cred`. -/
def exampleReceiveCred (p : ReceivePayload) (socket_fd : Int) (cred : ucred)
    (s : ExampleWorld) : ReceiveCredResult ExampleWorld :=
  if socket_fd < 0 then { status := .error 9, cred := cred, payload := p, world := s }
  else { status := .ok, cred := s.peer, payload := { p with buffer_ := s.pending },
         world := { s with pending := [] } }

/-- An example leaf decoder: reads the byte at the read position and turns it
into a value with `ofByte`; fails with `DECODE_FAILURE 1`, leaving the object
alone, when no byte is left. Every call is counted in the world. -/
def exampleLeaf {α : Type} (ofByte : Byte → α) (old : α) (p : ReceivePayload)
    (s : ExampleWorld) : DeserializeResult α ExampleWorld :=
  match p.buffer_.get? p.read_pos_ with
  | some b => { error := .NO_ERROR, value := ofByte b,
                payload := { p with read_pos_ := p.read_pos_ + 1 },
                world := { s with decodeCalls := s.decodeCalls + 1 } }
  | none => { error := .DECODE_FAILURE 1, value := old, payload := p,
              world := { s with decodeCalls := s.decodeCalls + 1 } }

/-- An example set of leaf decoders over `int` handles, one byte per leaf. -/
def exampleDecoder : Decoder Int ExampleWorld where
  decode_int32_t := exampleLeaf fun b => (b.val : Int)
  decode_uint32_t := exampleLeaf fun b => b.val
  decode_bool := exampleLeaf fun b => decide (b.val ≠ 0)
  decode_uint8_array32 := exampleLeaf fun b => ⟨List.replicate 32 b, List.length_replicate 32 b⟩
  decode_ucred := exampleLeaf fun b => { pid := b.val, uid := b.val, gid := b.val }
  decode_handles := exampleLeaf fun b => List.replicate b.val 0
  decode_channels := exampleLeaf fun b => List.replicate b.val { data_fd := 0, event_fd := 0 }

/-- An example request header: everything zero or empty, credential `(1, 2, 3)`. -/
def exampleRequest : RequestHeader Int where
  cred := { pid := 1, uid := 2, gid := 3 }
  file_descriptors := []
  channels := []
  impulse_payload := ⟨List.replicate 32 0, List.length_replicate 32 0⟩

/-- An example world: seven bytes wait on the socket, enough for the seven
members of a request header; the peer's credential is `(10, 20, 30)`. -/
def exampleWorldFull : ExampleWorld where
  pending := [5, 6, 7, 0, 0, 9, 1]
  peer := { pid := 10, uid := 20, gid := 30 }
  decodeCalls := 0

/-- An example world: only two bytes wait on the socket, so decoding a request
header fails at its third member. -/
def exampleWorldTruncated : ExampleWorld where
  pending := [5, 6]
  peer := { pid := 10, uid := 20, gid := 30 }
  decodeCalls := 0

/-- A concrete blocking call for the examples: the world is `(errno, calls made)`;
the first two evaluations fail with `-1` and set `errno` to `4`, every later one
returns `7` and leaves `errno` alone. -/
def twiceInterrupted (s : Int × Nat) : Int × (Int × Nat) :=
  if s.2 < 2 then (-1, (4, s.2 + 1)) else (7, (s.1, s.2 + 1))

/-- A concrete call that always succeeds with `3` and never touches `errno`. -/
def alwaysThree (s : Int × Nat) : Int × (Int × Nat) :=
  (3, (s.1, s.2 + 1))

/-- A concrete call that always fails with `-1` and sets `errno` to `9`. -/
def alwaysFailsNine (s : Int × Nat) : Int × (Int × Nat) :=
  (-1, (9, s.2 + 1))

/-- An example set of leaf encoders over `int` handles: a scalar is written as
one byte, the 32-byte array as its 32 bytes, a container size as one byte, and a
handle is pushed on the payload (as a borrowed handle) and its reference
written as one byte. -/
def exampleEncoder : Encoder Int where
  encode_int32_t v p := { p with buffer_ := p.buffer_ ++ [Fin.ofNat v.toNat] }
  encode_uint32_t v p := { p with buffer_ := p.buffer_ ++ [Fin.ofNat v] }
  encode_bool v p := { p with buffer_ := p.buffer_ ++ [if v then 1 else 0] }
  encode_uint8_array32 v p := { p with buffer_ := p.buffer_ ++ v.val }
  encode_ucred v p :=
    { p with buffer_ := p.buffer_ ++ [Fin.ofNat v.pid.toNat, Fin.ofNat v.uid, Fin.ofNat v.gid] }
  encode_handle h p :=
    { (p.PushFileHandle (.Borrowed h)).2 with
      buffer_ := p.buffer_ ++ [Fin.ofNat (p.PushFileHandle (.Borrowed h)).1] }
  encode_size n p := { p with buffer_ := p.buffer_ ++ [Fin.ofNat n] }

/-- An example response header: one file descriptor and two channels. -/
def exampleResponse : ResponseHeader Int where
  ret_code := 4
  recv_len := 9
  file_descriptors := [30]
  channels := [{ data_fd := 40, event_fd := 41 }, { data_fd := 50, event_fd := 51 }]

/-- An example `SendPayload::Send(int)`: always succeeds and records the
descriptor, the payload and the absence of a credential in the world, a log. -/
def exampleSend (p : SendPayload) (socket_fd : Int)
    (s : List (Int × SendPayload × Option ucred)) :
    SendResult (List (Int × SendPayload × Option ucred)) :=
  { status := .ok, world := s ++ [(socket_fd, p, none)] }

/-- An example `SendPayload::Send(int, const ucred*)`: as `exampleSend`, recording
the credential it was handed. -/
def exampleSendCred (p : SendPayload) (socket_fd : Int) (cred : ucred)
    (s : List (Int × SendPayload × Option ucred)) :
    SendResult (List (Int × SendPayload × Option ucred)) :=
  { status := .ok, world := s ++ [(socket_fd, p, some cred)] }

/-! ## Theorems -/

theorem stateAfter_succ_eq {σ : Type} (fnc_call : σ → Int × σ) (s : σ) (n : Nat) :
    stateAfter fnc_call s (n + 1) = stateAfter fnc_call (fnc_call s).2 n := by
  induction n with
  | zero => rfl
  | succ k ih =>
    show (fnc_call (stateAfter fnc_call s (k + 1))).2 = _
    rw [ih]
    rfl

theorem resultAt_succ_eq {σ : Type} (fnc_call : σ → Int × σ) (s : σ) (n : Nat) :
    resultAt fnc_call s (n + 1) = resultAt fnc_call (fnc_call s).2 n := by
  unfold resultAt
  rw [stateAfter_succ_eq]

/-- The loop run on a call that is interrupted on evaluations `1..N` and not on
evaluation `N + 1`: with more than `N` units of fuel it ends after exactly
`N + 1` evaluations with the result of the last one. -/
theorem RETRY_EINTR_run {σ : Type} (EINTR : Int) (errno : σ → Int)
    (fnc_call : σ → Int × σ) (N : Nat) :
    ∀ (s : σ) (fuel : Nat),
      (∀ i, i < N →
        interrupted EINTR errno (resultAt fnc_call s i) (stateAfter fnc_call s (i + 1))) →
      ¬ interrupted EINTR errno (resultAt fnc_call s N) (stateAfter fnc_call s (N + 1)) →
      N < fuel →
      RETRY_EINTR EINTR errno fnc_call fuel s =
        some { result := resultAt fnc_call s N,
               state := stateAfter fnc_call s (N + 1),
               evaluations := N + 1 } := by
  induction N with
  | zero =>
    intro s fuel _ hlast hfuel
    obtain ⟨f, rfl⟩ : ∃ f, fuel = f + 1 := ⟨fuel - 1, by omega⟩
    have hlast' : ¬ interrupted EINTR errno (fnc_call s).1 (fnc_call s).2 := hlast
    simp [RETRY_EINTR, hlast', resultAt, stateAfter]
  | succ k ih =>
    intro s fuel hint hlast hfuel
    obtain ⟨f, rfl⟩ : ∃ f, fuel = f + 1 := ⟨fuel - 1, by omega⟩
    have hfirst : interrupted EINTR errno (fnc_call s).1 (fnc_call s).2 :=
      hint 0 (Nat.succ_pos k)
    have hrest : ∀ i, i < k →
        interrupted EINTR errno (resultAt fnc_call (fnc_call s).2 i)
          (stateAfter fnc_call (fnc_call s).2 (i + 1)) := by
      intro i hi
      have h := hint (i + 1) (Nat.succ_lt_succ hi)
      rwa [resultAt_succ_eq, stateAfter_succ_eq] at h
    have hlast' : ¬ interrupted EINTR errno (resultAt fnc_call (fnc_call s).2 k)
        (stateAfter fnc_call (fnc_call s).2 (k + 1)) := by
      rwa [resultAt_succ_eq, stateAfter_succ_eq] at hlast
    have hrec := ih (fnc_call s).2 f hrest hlast' (by omega)
    rw [resultAt_succ_eq fnc_call s k, stateAfter_succ_eq fnc_call s (k + 1)]
    simp only [RETRY_EINTR, hfirst, if_true, hrec, Option.map_some']

/-- C5: for every `N` and every call that reports interruption (result `-1`
with `errno == EINTR`) on its first `N` evaluations and a successful result
(not `-1`) on evaluation `N + 1`, `RETRY_EINTR` (given more than `N` units of
fuel) evaluates the call exactly `N + 1` times and returns the result of
evaluation `N + 1`, leaving the world as that evaluation left it; the returned
result is not `-1`, so none of the interrupted results reaches the caller. -/
theorem C5_retry_masks_interrupts {σ : Type} (EINTR : Int) (errno : σ → Int)
    (fnc_call : σ → Int × σ) (s : σ) (N fuel : Nat)
    (hint : ∀ i, i < N →
      resultAt fnc_call s i = -1 ∧ errno (stateAfter fnc_call s (i + 1)) = EINTR)
    (hok : resultAt fnc_call s N ≠ -1)
    (hfuel : N < fuel) :
    RETRY_EINTR EINTR errno fnc_call fuel s =
        some { result := resultAt fnc_call s N,
               state := stateAfter fnc_call s (N + 1),
               evaluations := N + 1 }
      ∧ ∀ r, RETRY_EINTR EINTR errno fnc_call fuel s = some r →
          r.evaluations = N + 1 ∧ r.result ≠ -1 := by
  have hrun := RETRY_EINTR_run EINTR errno fnc_call N s fuel hint
    (fun h => hok h.1) hfuel
  refine ⟨hrun, ?_⟩
  intro r hr
  rw [hrun] at hr
  cases hr
  exact ⟨rfl, hok⟩

/-- C5 at a concrete call: `twiceInterrupted` is interrupted on its first two
evaluations and then returns `7`; with `EINTR = 4` and five units of fuel the
loop evaluates it three times and returns `7`. -/
theorem C5_retry_masks_interrupts_witness :
    (∀ i, i < 2 → resultAt twiceInterrupted (0, 0) i = -1 ∧
        Prod.fst (stateAfter twiceInterrupted (0, 0) (i + 1)) = 4)
      ∧ resultAt twiceInterrupted (0, 0) 2 ≠ -1
      ∧ 2 < 5
      ∧ RETRY_EINTR 4 Prod.fst twiceInterrupted 5 (0, 0) =
        some { result := 7, state := (4, 3), evaluations := 3 } :=
  ⟨by decide, by decide, by decide,
   (C5_retry_masks_interrupts 4 Prod.fst twiceInterrupted (0, 0) 2 5
    (by decide) (by decide) (by decide)).1⟩

/-- C6: for every call whose first evaluation does not indicate interruption
(it is not the case that the result is `-1` and `errno` is `EINTR`),
`RETRY_EINTR` with any non-zero fuel evaluates it exactly once and returns its
result unchanged, leaving the world as that one evaluation left it. -/
theorem C6_retry_returns_other_results {σ : Type} (EINTR : Int) (errno : σ → Int)
    (fnc_call : σ → Int × σ) (s : σ) (fuel : Nat)
    (hnot : ¬ ((fnc_call s).1 = -1 ∧ errno (fnc_call s).2 = EINTR))
    (hfuel : 0 < fuel) :
    RETRY_EINTR EINTR errno fnc_call fuel s =
      some { result := (fnc_call s).1, state := (fnc_call s).2, evaluations := 1 } :=
  RETRY_EINTR_run EINTR errno fnc_call 0 s fuel (fun _ hi => absurd hi (Nat.not_lt_zero _))
    hnot hfuel

/-- C6 at two concrete calls with `EINTR = 4`: a result `3` while `errno` still
holds `4` from earlier, and a result `-1` with `errno` set to `9`; each call is
evaluated once and its result returned as it is. -/
theorem C6_retry_returns_other_results_witness :
    (¬ ((alwaysThree (4, 0)).1 = -1 ∧ Prod.fst (alwaysThree (4, 0)).2 = 4)
      ∧ RETRY_EINTR 4 Prod.fst alwaysThree 1 (4, 0) =
        some { result := 3, state := (4, 1), evaluations := 1 })
    ∧ (¬ ((alwaysFailsNine (4, 0)).1 = -1 ∧ Prod.fst (alwaysFailsNine (4, 0)).2 = 4)
      ∧ RETRY_EINTR 4 Prod.fst alwaysFailsNine 1 (4, 0) =
        some { result := -1, state := (9, 1), evaluations := 1 }) :=
  ⟨⟨by decide,
    C6_retry_returns_other_results 4 Prod.fst alwaysThree (4, 0) 1 (by decide) (by decide)⟩,
   ⟨by decide,
    C6_retry_returns_other_results 4 Prod.fst alwaysFailsNine (4, 0) 1 (by decide) (by decide)⟩⟩

/-! ### Envelope schemas -/

/-- C1: the serialized member list of `RequestHeader` is, in this order, `op`
(`int32_t`), `send_len` (`uint32_t`), `max_recv_len` (`uint32_t`),
`file_descriptors`, `channels`, `impulse_payload` (an array of exactly 32
`uint8_t`), `is_impulse`; `cred` is a data member but not in the list. So
serializing a header writes these seven members in this order, and the payload
it produces (buffer and pending descriptors) does not depend on `cred`, whatever
the leaf encoders are. -/
theorem C1_request_header_members :
    RequestHeader.PDX_SERIALIZABLE_MEMBERS =
        [.op, .send_len, .max_recv_len, .file_descriptors, .channels, .impulse_payload,
         .is_impulse]
      ∧ RequestHeader.PDX_SERIALIZABLE_MEMBERS.map RequestHeader.Field.ctype =
        [.int32_t, .uint32_t, .uint32_t, .vector .FileHandleType, .vector .ChannelInfo,
         .array .uint8_t 32, .bool]
      ∧ RequestHeader.Field.cred ∉ RequestHeader.PDX_SERIALIZABLE_MEMBERS
      ∧ RequestHeader.Field.ctype .cred = .ucred
      ∧ (∀ (H : Type) (r : RequestHeader H), r.impulse_payload.val.length = 32)
      ∧ (∀ (H : Type) (E : Encoder H) (r : RequestHeader H) (p : SendPayload),
          RequestHeader.Serialize E r p =
            E.encode_bool r.is_impulse
              (E.encode_uint8_array32 r.impulse_payload
                (SerializeVector E (ChannelInfo.Serialize E) r.channels
                  (SerializeVector E E.encode_handle r.file_descriptors
                    (E.encode_uint32_t r.max_recv_len
                      (E.encode_uint32_t r.send_len
                        (E.encode_int32_t r.op p)))))))
      ∧ (∀ (H : Type) (E : Encoder H) (r : RequestHeader H) (c : ucred) (p : SendPayload),
          RequestHeader.Serialize E { r with cred := c } p = RequestHeader.Serialize E r p) := by
  refine ⟨rfl, rfl, by decide, rfl, ?_, ?_, ?_⟩
  · intro H r
    exact r.impulse_payload.property
  · intro H E r p
    rfl
  · intro H E r c p
    rfl

/-- C2: the serialized member list of `ResponseHeader` is, in this order,
`ret_code` (`int32_t`), `recv_len` (`uint32_t`), `file_descriptors`, `channels`:
every data member of the class is listed exactly once, and serializing a
response writes these four members in this order and nothing else. -/
theorem C2_response_header_members :
    ResponseHeader.PDX_SERIALIZABLE_MEMBERS =
        [.ret_code, .recv_len, .file_descriptors, .channels]
      ∧ ResponseHeader.PDX_SERIALIZABLE_MEMBERS.map ResponseHeader.Field.ctype =
        [.int32_t, .uint32_t, .vector .FileHandleType, .vector .ChannelInfo]
      ∧ (∀ f : ResponseHeader.Field, f ∈ ResponseHeader.PDX_SERIALIZABLE_MEMBERS)
      ∧ ResponseHeader.PDX_SERIALIZABLE_MEMBERS.Nodup
      ∧ (∀ (H : Type) (E : Encoder H) (r : ResponseHeader H) (p : SendPayload),
          ResponseHeader.Serialize E r p =
            SerializeVector E (ChannelInfo.Serialize E) r.channels
              (SerializeVector E E.encode_handle r.file_descriptors
                (E.encode_uint32_t r.recv_len
                  (E.encode_int32_t r.ret_code p)))) := by
  refine ⟨rfl, rfl, ?_, by decide, ?_⟩
  · intro f
    cases f <;> decide
  · intro H E r p
    rfl

/-- C9: for every handle type, `ChannelInfo` serializes exactly two members,
`data_fd` first and `event_fd` second, both of the handle type. So serializing
one `ChannelInfo` writes its data handle and then its event handle, and the
`channels` member of a request or response header writes the element count and
then, for each entry in order, the entry's data handle immediately followed by
its event handle. -/
theorem C9_channel_info_members :
    ChannelInfo.PDX_SERIALIZABLE_MEMBERS = [.data_fd, .event_fd]
      ∧ ChannelInfo.PDX_SERIALIZABLE_MEMBERS.map ChannelInfo.Field.ctype =
        [.FileHandleType, .FileHandleType]
      ∧ (∀ (H : Type) (E : Encoder H) (c : ChannelInfo H) (p : SendPayload),
          ChannelInfo.Serialize E c p = E.encode_handle c.event_fd (E.encode_handle c.data_fd p))
      ∧ (∀ (H : Type) (E : Encoder H) (r : RequestHeader H) (p : SendPayload),
          RequestHeader.Field.Serialize E r .channels p =
            r.channels.foldl
              (fun q c => E.encode_handle c.event_fd (E.encode_handle c.data_fd q))
              (E.encode_size r.channels.length p))
      ∧ (∀ (H : Type) (E : Encoder H) (r : ResponseHeader H) (p : SendPayload),
          ResponseHeader.Field.Serialize E r .channels p =
            r.channels.foldl
              (fun q c => E.encode_handle c.event_fd (E.encode_handle c.data_fd q))
              (E.encode_size r.channels.length p)) := by
  refine ⟨rfl, rfl, ?_, ?_, ?_⟩
  · intro H E c p
    rfl
  · intro H E r p
    rfl
  · intro H E r p
    rfl

/-! ### `SendPayload::PushFileHandle` -/

theorem PushFileHandle_reference (p : SendPayload) (h : Handle) :
    (p.PushFileHandle h).1 = p.file_handles_.length := by
  cases h <;> rfl

theorem PushFileHandle_pending (p : SendPayload) (h : Handle) :
    (p.PushFileHandle h).2.file_handles_ = p.file_handles_ ++ [h.Get] := by
  cases h <;> rfl

theorem PushFileHandles_run (hs : List Handle) :
    ∀ p : SendPayload,
      (p.PushFileHandles hs).1 = List.range' p.file_handles_.length hs.length
        ∧ (p.PushFileHandles hs).2.file_handles_ = p.file_handles_ ++ hs.map Handle.Get := by
  induction hs with
  | nil =>
    intro p
    simp [SendPayload.PushFileHandles]
  | cons h hs ih =>
    intro p
    obtain ⟨h1, h2⟩ := ih (p.PushFileHandle h).2
    simp only [SendPayload.PushFileHandles, h1, h2, PushFileHandle_reference,
      PushFileHandle_pending, List.length_append, List.length_cons, List.length_nil,
      List.map_cons, List.append_assoc, List.singleton_append, List.range'_succ]
    exact ⟨trivial, trivial⟩

/-- C7: on a fresh `SendPayload`, for every sequence of `PushFileHandle` calls
(any mix of `Local`, `Borrowed` and `Remote` handles, repeats included), the
references returned are `0, 1, ..., k - 1` in call order (the `i`-th call returns
`i`), each call returns the length of `file_handles_` before its append, and
afterwards `file_handles_` holds the `k` pushed descriptors in push order. -/
theorem C7_push_file_handle_references (hs : List Handle) :
    (({} : SendPayload).PushFileHandles hs).1 = List.range hs.length
      ∧ (∀ i, i < hs.length → (({} : SendPayload).PushFileHandles hs).1.get? i = some i)
      ∧ (({} : SendPayload).PushFileHandles hs).2.file_handles_ = hs.map Handle.Get
      ∧ (({} : SendPayload).PushFileHandles hs).2.file_handles_.length = hs.length
      ∧ (∀ (p : SendPayload) (h : Handle),
          (p.PushFileHandle h).1 = p.file_handles_.length
            ∧ (p.PushFileHandle h).2.file_handles_ = p.file_handles_ ++ [h.Get]) := by
  obtain ⟨h1, h2⟩ := PushFileHandles_run hs {}
  have hrefs : (({} : SendPayload).PushFileHandles hs).1 = List.range hs.length := by
    rw [h1, List.range_eq_range']
    rfl
  have hfds : (({} : SendPayload).PushFileHandles hs).2.file_handles_ = hs.map Handle.Get := by
    rw [h2]
    rfl
  refine ⟨hrefs, ?_, hfds, ?_, ?_⟩
  · intro i hi
    rw [hrefs, List.get?_eq_getElem?, List.getElem?_range hi]
  · rw [hfds, List.length_map]
  · intro p h
    exact ⟨PushFileHandle_reference p h, PushFileHandle_pending p h⟩

/-! ### Generic send/receive entry points -/

/-- C4: `SendData` applied to a `RequestHeader` calls `Send` with the header's
own `cred` (so two headers that differ only in `cred` send the same payload with
different credentials), whereas `SendData` applied to any other type calls the
`Send` that takes no credential; in both cases the payload handed to `Send` is a
fresh `SendPayload` (empty buffer, no pending descriptors) into which the value
was serialized. -/
theorem C4_send_data_credential :
    (∀ (T σ : Type) (Serialize : T → SendPayload → SendPayload)
        (Send : SendPayload → Int → σ → SendResult σ) (socket_fd : Int) (data : T) (s : σ),
        SendData Serialize Send socket_fd data s
          = Send (Serialize data { buffer_ := [], file_handles_ := [] }) socket_fd s)
      ∧ (∀ (H σ : Type) (E : Encoder H)
          (SendCred : SendPayload → Int → ucred → σ → SendResult σ)
          (socket_fd : Int) (request : RequestHeader H) (s : σ),
          SendDataRequest E SendCred socket_fd request s
            = SendCred (RequestHeader.Serialize E request { buffer_ := [], file_handles_ := [] })
                socket_fd request.cred s)
      ∧ (∀ (H σ : Type) (E : Encoder H)
          (SendCred : SendPayload → Int → ucred → σ → SendResult σ)
          (socket_fd : Int) (request : RequestHeader H) (c : ucred) (s : σ),
          SendDataRequest E SendCred socket_fd { request with cred := c } s
            = SendCred (RequestHeader.Serialize E request { buffer_ := [], file_handles_ := [] })
                socket_fd c s) := by
  refine ⟨?_, ?_, ?_⟩
  · intro T σ Serialize Send socket_fd data s
    rfl
  · intro H σ E SendCred socket_fd request s
    rfl
  · intro H σ E SendCred socket_fd request c s
    rfl

/-- C3: for both `ReceiveData` overloads, whenever the payload's `Receive`
succeeds, the returned status is success if deserialization returns `NO_ERROR`
and a failure with code `EIO` if it returns anything else. -/
theorem C3_receive_data_decode_status :
    (∀ (T σ : Type) ( EIO : Int) (Receive : ReceivePayload → Int → σ → ReceiveResult σ)
        (Deserialize : T → ReceivePayload → σ → DeserializeResult T σ)
        (socket_fd : Int) (data : T) (s : σ),
        (Receive {} socket_fd s).status = .ok →
        (ReceiveData EIO Receive Deserialize socket_fd data s).status =
          if (Deserialize data (Receive {} socket_fd s).payload
                (Receive {} socket_fd s).world).error = .NO_ERROR
          then .ok else .error EIO)
      ∧ (∀ (H σ : Type) ( EIO : Int)
          (ReceiveCred : ReceivePayload → Int → ucred → σ → ReceiveCredResult σ)
          (D : Decoder H σ) (socket_fd : Int) (request : RequestHeader H) (s : σ),
          (ReceiveCred {} socket_fd request.cred s).status = .ok →
          (ReceiveDataRequest EIO ReceiveCred D socket_fd request s).status =
            if (RequestHeader.Deserialize D
                  { request with cred := (ReceiveCred {} socket_fd request.cred s).cred }
                  (ReceiveCred {} socket_fd request.cred s).payload
                  (ReceiveCred {} socket_fd request.cred s).world).error = .NO_ERROR
            then .ok else .error EIO) := by
  refine ⟨?_, ?_⟩
  · intro T σ EIO Receive Deserialize socket_fd data s hok
    simp only [ReceiveData, hok, Status.isOk, if_true, Status.SetError]
    split <;> simp_all
  · intro H σ EIO ReceiveCred D socket_fd request s hok
    simp only [ReceiveDataRequest, hok, Status.isOk, if_true, Status.SetError]
    split <;> simp_all

/-- C3 at concrete inputs, with `EIO = 5`: the example socket delivers bytes
(`Receive` succeeds); decoding a `uint32_t` or a request header from enough
bytes gives success, decoding from no bytes or from two bytes gives a failure
with code `5`. -/
theorem C3_receive_data_decode_status_witness :
    ((exampleReceive {} 3 exampleWorldFull).status = .ok
        ∧ (ReceiveData 5 exampleReceive exampleDecoder.decode_uint32_t 3 0
            exampleWorldFull).status = .ok)
      ∧ ((exampleReceive {} 3 { exampleWorldFull with pending := [] }).status = .ok
        ∧ (ReceiveData 5 exampleReceive exampleDecoder.decode_uint32_t 3 0
            { exampleWorldFull with pending := [] }).status = .error 5)
      ∧ ((exampleReceiveCred {} 3 exampleRequest.cred exampleWorldFull).status = .ok
        ∧ (ReceiveDataRequest 5 exampleReceiveCred exampleDecoder 3 exampleRequest
            exampleWorldFull).status = .ok)
      ∧ ((exampleReceiveCred {} 3 exampleRequest.cred exampleWorldTruncated).status = .ok
        ∧ (ReceiveDataRequest 5 exampleReceiveCred exampleDecoder 3 exampleRequest
            exampleWorldTruncated).status = .error 5) :=
  ⟨⟨by decide,
    (C3_receive_data_decode_status.1 Nat ExampleWorld 5 exampleReceive
      exampleDecoder.decode_uint32_t 3 0 exampleWorldFull (by decide)).trans (by decide)⟩,
   ⟨by decide,
    (C3_receive_data_decode_status.1 Nat ExampleWorld 5 exampleReceive
      exampleDecoder.decode_uint32_t 3 0 { exampleWorldFull with pending := [] }
      (by decide)).trans (by decide)⟩,
   ⟨by decide,
    (C3_receive_data_decode_status.2 Int ExampleWorld 5 exampleReceiveCred exampleDecoder 3
      exampleRequest exampleWorldFull (by decide)).trans (by decide)⟩,
   ⟨by decide,
    (C3_receive_data_decode_status.2 Int ExampleWorld 5 exampleReceiveCred exampleDecoder 3
      exampleRequest exampleWorldTruncated (by decide)).trans (by decide)⟩⟩

/-- C8: for both `ReceiveData` overloads, whenever the payload's `Receive` fails
with error code `e`, `ReceiveData` returns a failed status carrying exactly `e`
and the world is the one `Receive` left: the outcome does not involve the
deserializer at all, so deserialization is not attempted. For the generic
overload `*data` is unchanged; for the `RequestHeader` overload `*request` is
unchanged except for `cred`, which holds whatever `Receive` left there. -/
theorem C8_receive_data_transport_failure :
    (∀ (T σ : Type) ( EIO : Int) (Receive : ReceivePayload → Int → σ → ReceiveResult σ)
        (Deserialize : T → ReceivePayload → σ → DeserializeResult T σ)
        (socket_fd : Int) (data : T) (s : σ) (e : Int),
        (Receive {} socket_fd s).status = .error e →
        ReceiveData EIO Receive Deserialize socket_fd data s =
          { status := .error e, data := data, world := (Receive {} socket_fd s).world })
      ∧ (∀ (H σ : Type) ( EIO : Int)
          (ReceiveCred : ReceivePayload → Int → ucred → σ → ReceiveCredResult σ)
          (D : Decoder H σ) (socket_fd : Int) (request : RequestHeader H) (s : σ) (e : Int),
          (ReceiveCred {} socket_fd request.cred s).status = .error e →
          ReceiveDataRequest EIO ReceiveCred D socket_fd request s =
            { status := .error e,
              data := { request with cred := (ReceiveCred {} socket_fd request.cred s).cred },
              world := (ReceiveCred {} socket_fd request.cred s).world }) := by
  refine ⟨?_, ?_⟩
  · intro T σ EIO Receive Deserialize socket_fd data s e herr
    simp [ReceiveData, herr, Status.isOk]
  · intro H σ EIO ReceiveCred D socket_fd request s e herr
    simp [ReceiveDataRequest, herr, Status.isOk]

/-- C8 at concrete inputs: on a negative descriptor the example `Receive` fails
with error `9`; `ReceiveData` returns error `9`, leaves the value alone, and the
world's count of decoder calls is still zero. -/
theorem C8_receive_data_transport_failure_witness :
    ((exampleReceive {} (-1) exampleWorldFull).status = .error 9
        ∧ ReceiveData 5 exampleReceive exampleDecoder.decode_uint32_t (-1) 42 exampleWorldFull =
          { status := .error 9, data := 42, world := exampleWorldFull })
      ∧ ((exampleReceiveCred {} (-1) exampleRequest.cred exampleWorldFull).status = .error 9
        ∧ ReceiveDataRequest 5 exampleReceiveCred exampleDecoder (-1) exampleRequest
            exampleWorldFull =
          { status := .error 9, data := exampleRequest, world := exampleWorldFull })
      ∧ exampleWorldFull.decodeCalls = 0 :=
  ⟨⟨by decide,
    C8_receive_data_transport_failure.1 Nat ExampleWorld 5 exampleReceive
      exampleDecoder.decode_uint32_t (-1) 42 exampleWorldFull 9 (by decide)⟩,
   ⟨by decide,
    C8_receive_data_transport_failure.2 Int ExampleWorld 5 exampleReceiveCred exampleDecoder
      (-1) exampleRequest exampleWorldFull 9 (by decide)⟩,
   by decide⟩

theorem DeserializeMembers_frame {F T σ β : Type}
    (read : F → T → ReceivePayload → σ → DeserializeResult T σ) (f : T → β) (ms : List F)
    (hread : ∀ m, m ∈ ms → ∀ v p s, f (read m v p s).value = f v) :
    ∀ v p s, f (DeserializeMembers read ms v p s).value = f v := by
  induction ms with
  | nil =>
    intro v p s
    rfl
  | cons m ms ih =>
    intro v p s
    have hm := hread m (List.mem_cons_self m ms) v p s
    have hms := ih (fun m' hm' => hread m' (List.mem_cons_of_mem m hm'))
    simp only [DeserializeMembers]
    split
    · rw [hms, hm]
    · exact hm

theorem RequestHeader_Deserialize_cred {H σ : Type} (D : Decoder H σ)
    (r : RequestHeader H) (p : ReceivePayload) (s : σ) :
    (RequestHeader.Deserialize D r p s).value.cred = r.cred := by
  unfold RequestHeader.Deserialize
  apply DeserializeMembers_frame (RequestHeader.Field.Deserialize D) (fun x => x.cred)
  intro m hm v q t
  cases m <;>
    first
    | rfl
    | exact absurd hm (by decide)

/-- C10: after a successful `ReceiveData` into a `RequestHeader` (which means
`Receive` succeeded and deserialization returned `NO_ERROR`), the header's `cred`
is the credential that `Receive(socket_fd, &request->cred)` left there, whatever
bytes were received and whatever the leaf decoders are: deserializing a
`RequestHeader` walks only the seven listed members and never changes `cred`. -/
theorem C10_receive_data_keeps_credential {H σ : Type} ( EIO : Int)
    (ReceiveCred : ReceivePayload → Int → ucred → σ → ReceiveCredResult σ)
    (D : Decoder H σ) (socket_fd : Int) (request : RequestHeader H) (s : σ)
    (hok : (ReceiveDataRequest EIO ReceiveCred D socket_fd request s).status = .ok) :
    (ReceiveDataRequest EIO ReceiveCred D socket_fd request s).data.cred =
        (ReceiveCred {} socket_fd request.cred s).cred
      ∧ (ReceiveCred {} socket_fd request.cred s).status = .ok
      ∧ (RequestHeader.Deserialize D
            { request with cred := (ReceiveCred {} socket_fd request.cred s).cred }
            (ReceiveCred {} socket_fd request.cred s).payload
            (ReceiveCred {} socket_fd request.cred s).world).error = .NO_ERROR
      ∧ (∀ (r : RequestHeader H) (p : ReceivePayload) (t : σ),
          (RequestHeader.Deserialize D r p t).value.cred = r.cred) := by
  have hrecv : (ReceiveCred {} socket_fd request.cred s).status = .ok := by
    cases hst : (ReceiveCred {} socket_fd request.cred s).status with
    | ok => rfl
    | error e => simp [ReceiveDataRequest, hst, Status.isOk] at hok
  refine ⟨?_, hrecv, ?_, RequestHeader_Deserialize_cred D⟩
  · simp only [ReceiveDataRequest]
    split
    · split <;> exact RequestHeader_Deserialize_cred D _ _ _
    · rfl
  · by_contra hne
    simp [ReceiveDataRequest, hrecv, Status.isOk, hne, Status.SetError] at hok

/-- C10 at a concrete input: the example socket delivers seven bytes and the
peer credential `(10, 20, 30)`; the request started with credential `(1, 2, 3)`;
`ReceiveData` succeeds, every serialized member is overwritten from the bytes,
and `cred` is the delivered `(10, 20, 30)`. -/
theorem C10_receive_data_keeps_credential_witness :
    (ReceiveDataRequest 5 exampleReceiveCred exampleDecoder 3 exampleRequest
        exampleWorldFull).status = .ok
      ∧ (exampleReceiveCred {} 3 exampleRequest.cred exampleWorldFull).cred =
        { pid := 10, uid := 20, gid := 30 }
      ∧ (ReceiveDataRequest 5 exampleReceiveCred exampleDecoder 3 exampleRequest
        exampleWorldFull).data.cred = { pid := 10, uid := 20, gid := 30 }
      ∧ (ReceiveDataRequest 5 exampleReceiveCred exampleDecoder 3 exampleRequest
        exampleWorldFull).data.op = 5 :=
  ⟨by decide, by decide,
   (C10_receive_data_keeps_credential 5 exampleReceiveCred exampleDecoder 3 exampleRequest
      exampleWorldFull (by decide)).1.trans (by decide),
   by decide⟩

/-! ### The definitions evaluated on the examples -/

/-- Four pushes that repeat descriptor `7` and mix the handle variants get the
references `0, 1, 2, 3`, and all four descriptors are pending in push order. -/
theorem example_push_file_handles :
    ({} : SendPayload).PushFileHandles [.Local 7, .Remote 7, .Borrowed 9, .Local 7] =
      ([0, 1, 2, 3], { buffer_ := [], file_handles_ := [7, 7, 9, 7] }) := by
  decide

/-- With the example encoders, the example response is written as `ret_code`,
`recv_len`, the descriptor table (size `1`, reference `0`) and the channel table
(size `2`, then per entry the data reference followed by the event reference). -/
theorem example_response_payload :
    ResponseHeader.Serialize exampleEncoder exampleResponse {} =
      { buffer_ := [4, 9, 1, 0, 2, 1, 2, 3, 4], file_handles_ := [30, 40, 41, 50, 51] } := by
  decide

/-- With the recording `Send`, the generic `SendData` logs one message without a
credential, and `SendData` on two request headers that differ only in `cred`
logs the same payload with the respective credential. -/
theorem example_send_data_log :
    (SendData (ResponseHeader.Serialize exampleEncoder) exampleSend 3 exampleResponse []).world =
        [(3, ResponseHeader.Serialize exampleEncoder exampleResponse {}, none)]
      ∧ (SendDataRequest exampleEncoder exampleSendCred 3 exampleRequest []).world =
        [(3, RequestHeader.Serialize exampleEncoder exampleRequest {},
          some { pid := 1, uid := 2, gid := 3 })]
      ∧ (SendDataRequest exampleEncoder exampleSendCred 3
          { exampleRequest with cred := { pid := 7, uid := 8, gid := 9 } } []).world =
        [(3, RequestHeader.Serialize exampleEncoder exampleRequest {},
          some { pid := 7, uid := 8, gid := 9 })] := by
  decide

end Uds
